import Mathlib

/-!
Verification of the zoom-level state machine of
`src/old/traditional/concepts/cpp_nav/SpatialNavigator.cpp`
(TOS-Desktop-Environment).

The C++ class `SpatialNavigator` holds a `ZoomLevel` enum and three `int`
index fields using `-1` as the "unset" sentinel.  We embed the class as a
Lean structure and each member function as a pure function
`SpatialNavigator -> SpatialNavigator x List String`, where the second
component is the list of lines the function writes to `std::cout`
(including the trailing `printStatus()` line where the C++ calls it).
-/

/-- The `ZoomLevel` enum from `ZoomDefinitions.h`, in declaration order. -/
inductive ZoomLevel where
  | LEVEL_1_ROOT
  | LEVEL_2_SECTOR
  | LEVEL_3_FOCUS
  | LEVEL_3A_PICKER
deriving DecidableEq

/-- The value of `(int)level` for each enumerator: C++ scoped enums without
explicit values number their enumerators 0, 1, 2, ... in declaration order. -/
def ZoomLevel.toCInt : ZoomLevel → Int
  | .LEVEL_1_ROOT => 0
  | .LEVEL_2_SECTOR => 1
  | .LEVEL_3_FOCUS => 2
  | .LEVEL_3A_PICKER => 3

/-- `zoomLevelToString` from `ZoomDefinitions.h`. -/
def zoomLevelToString : ZoomLevel → String
  | .LEVEL_1_ROOT => "Level 1: Root (Overview)"
  | .LEVEL_2_SECTOR => "Level 2: Sector (Group)"
  | .LEVEL_3_FOCUS => "Level 3: Focus (App)"
  | .LEVEL_3A_PICKER => "Level 3a: Picker (Windows)"

/-- The data members of the `SpatialNavigator` class (`SpatialNavigator.h`).
All three indices are C++ `int`s using `-1` as the "none" sentinel. -/
structure SpatialNavigator where
  m_currentLevel : ZoomLevel
  m_activeSectorIndex : Int
  m_activeAppIndex : Int
  m_activeWindowIndex : Int
deriving DecidableEq

/-- The `SpatialNavigator` constructor: level `LEVEL_1_ROOT`, all indices `-1`. -/
def SpatialNavigator.construct : SpatialNavigator :=
  { m_currentLevel := ZoomLevel.LEVEL_1_ROOT
  , m_activeSectorIndex := -1
  , m_activeAppIndex := -1
  , m_activeWindowIndex := -1 }

/-- `SpatialNavigator::printStatus` : prints `Current State: ` followed by
`(int)m_currentLevel`. -/
def printStatus (nav : SpatialNavigator) : String :=
  "Current State: " ++ toString nav.m_currentLevel.toCInt

/-- `SpatialNavigator::zoomIn(int targetIndex)` : the if/else-if chain on
`m_currentLevel`, followed by `printStatus()`.  Returns the updated object
and the `cout` lines. -/
def zoomIn (nav : SpatialNavigator) (targetIndex : Int) :
    SpatialNavigator × List String :=
  let (nav2, line) :=
    if nav.m_currentLevel = ZoomLevel.LEVEL_1_ROOT then
      ({ nav with m_activeSectorIndex := targetIndex
                , m_currentLevel := ZoomLevel.LEVEL_2_SECTOR },
       "[Zoom In] Entering Sector " ++ toString targetIndex)
    else if nav.m_currentLevel = ZoomLevel.LEVEL_2_SECTOR then
      ({ nav with m_activeAppIndex := targetIndex
                , m_currentLevel := ZoomLevel.LEVEL_3_FOCUS },
       "[Zoom In] Focusing on App " ++ toString targetIndex
         ++ " (Morphing SSD Frame...)")
    else if nav.m_currentLevel = ZoomLevel.LEVEL_3A_PICKER then
      ({ nav with m_activeWindowIndex := targetIndex
                , m_currentLevel := ZoomLevel.LEVEL_3_FOCUS },
       "[Zoom In] Selected Window " ++ toString targetIndex ++ " from Picker.")
    else
      (nav, "[Navigate] Already at deepest level (Level 3 Focus).")
  (nav2, [line, printStatus nav2])

/-- The local variable `hasMultipleWindows` computed in
`SpatialNavigator::zoomOut` at level `LEVEL_3_FOCUS`:
`(m_activeAppIndex % 2 == 0)`.  C++ `%` on `int` is the truncated
remainder, i.e. `Int.tmod`. -/
def hasMultipleWindows (appIndex : Int) : Bool :=
  Int.tmod appIndex 2 == 0

/-- `SpatialNavigator::zoomOut()` : the if/else-if chain on
`m_currentLevel`, with the data-dependent branch at `LEVEL_3_FOCUS`,
followed by `printStatus()`. -/
def zoomOut (nav : SpatialNavigator) : SpatialNavigator × List String :=
  let (nav2, line) :=
    if nav.m_currentLevel = ZoomLevel.LEVEL_3_FOCUS then
      if hasMultipleWindows nav.m_activeAppIndex then
        ({ nav with m_currentLevel := ZoomLevel.LEVEL_3A_PICKER },
         "[Zoom Out] Multiple windows detected -> Entering Window Picker (Level 3a).")
      else
        ({ nav with m_currentLevel := ZoomLevel.LEVEL_2_SECTOR
                  , m_activeAppIndex := -1 },
         "[Zoom Out] Returning to Sector View (Level 2).")
    else if nav.m_currentLevel = ZoomLevel.LEVEL_3A_PICKER then
      ({ nav with m_currentLevel := ZoomLevel.LEVEL_2_SECTOR
                , m_activeAppIndex := -1 },
       "[Zoom Out] Returning to Sector View (Level 2) from Picker.")
    else if nav.m_currentLevel = ZoomLevel.LEVEL_2_SECTOR then
      ({ nav with m_currentLevel := ZoomLevel.LEVEL_1_ROOT
                , m_activeSectorIndex := -1 },
       "[Zoom Out] Returning to Root Overview (Level 1).")
    else
      (nav, "[Navigate] Already at top level (Level 1 Root).")
  (nav2, [line, printStatus nav2])

/-- `SpatialNavigator::splitView()` : prints, never writes a member.
(No `printStatus()` call in the C++.) -/
def splitView (nav : SpatialNavigator) : SpatialNavigator × List String :=
  if nav.m_currentLevel = ZoomLevel.LEVEL_3_FOCUS then
    (nav,
     [ "[Split] Splitting Viewport..."
     , "  -> Left Pane: Retains App Focus (Level 3)"
     , "  -> Right Pane: Reverts to Level 2 (Sector Selection)" ])
  else
    (nav, ["[Split] Can only split from a focused app (Level 3)."])

/-- `SpatialNavigator::getCurrentLevel() const`. -/
def getCurrentLevel (nav : SpatialNavigator) : ZoomLevel :=
  nav.m_currentLevel

/-- One call on the navigator's public mutating interface. -/
inductive NavOp where
  | zoomIn (targetIndex : Int)
  | zoomOut
  | splitView
deriving DecidableEq

/-- The state effect of one call (discarding console output). -/
def applyOp (nav : SpatialNavigator) : NavOp → SpatialNavigator
  | NavOp.zoomIn t => (zoomIn nav t).1
  | NavOp.zoomOut => (zoomOut nav).1
  | NavOp.splitView => (splitView nav).1

/-- Run a sequence of calls from a given state. -/
def runOps : SpatialNavigator → List NavOp → SpatialNavigator
  | nav, [] => nav
  | nav, o :: rest => runOps (applyOp nav o) rest

/-- States reachable from the freshly constructed navigator by any call
sequence with arbitrary integer arguments. -/
def Reachable (nav : SpatialNavigator) : Prop :=
  ∃ ops : List NavOp, runOps SpatialNavigator.construct ops = nav

/-- A call argument avoids the `-1` "unset" sentinel. -/
def argOk : NavOp → Bool
  | NavOp.zoomIn t => t != -1
  | NavOp.zoomOut => true
  | NavOp.splitView => true

/-- The index/level correspondence of spec section 3, read over the `-1`
sentinel of the C++ code. -/
def indicesInv (nav : SpatialNavigator) : Prop :=
  (nav.m_activeSectorIndex ≠ -1 ↔
    (nav.m_currentLevel = ZoomLevel.LEVEL_2_SECTOR ∨
     nav.m_currentLevel = ZoomLevel.LEVEL_3_FOCUS ∨
     nav.m_currentLevel = ZoomLevel.LEVEL_3A_PICKER)) ∧
  (nav.m_activeAppIndex ≠ -1 ↔
    (nav.m_currentLevel = ZoomLevel.LEVEL_3_FOCUS ∨
     nav.m_currentLevel = ZoomLevel.LEVEL_3A_PICKER))

/-- Depth of each level in the zoom hierarchy:
Root < Sector < Picker < Focus. -/
def ZoomLevel.depth : ZoomLevel → Nat
  | .LEVEL_1_ROOT => 0
  | .LEVEL_2_SECTOR => 1
  | .LEVEL_3A_PICKER => 2
  | .LEVEL_3_FOCUS => 3

-- Basic sanity: the demonstration driver's sequence.
example :
    runOps SpatialNavigator.construct
      [NavOp.zoomIn 0, NavOp.zoomIn 1, NavOp.splitView, NavOp.zoomOut] =
    { m_currentLevel := ZoomLevel.LEVEL_2_SECTOR
    , m_activeSectorIndex := 0
    , m_activeAppIndex := -1
    , m_activeWindowIndex := -1 } := by decide

/-- Claim C4: from any state at level Picker, `zoomIn(w)` moves to level
Focus, sets `m_activeWindowIndex` to `w`, and leaves `m_activeSectorIndex`
and `m_activeAppIndex` unchanged. -/
theorem zoomIn_picker_selects_window (nav : SpatialNavigator) (w : Int)
    (h : nav.m_currentLevel = ZoomLevel.LEVEL_3A_PICKER) :
    (zoomIn nav w).1 =
      { nav with m_currentLevel := ZoomLevel.LEVEL_3_FOCUS
               , m_activeWindowIndex := w } := by
  simp [zoomIn, h]

/-- Witness for C4 at the concrete state (Picker, 0, 2, -1) and w = 7. -/
theorem zoomIn_picker_selects_window_witness :
    (zoomIn
      { m_currentLevel := ZoomLevel.LEVEL_3A_PICKER
      , m_activeSectorIndex := 0
      , m_activeAppIndex := 2
      , m_activeWindowIndex := -1 } 7).1 =
      { m_currentLevel := ZoomLevel.LEVEL_3_FOCUS
      , m_activeSectorIndex := 0
      , m_activeAppIndex := 2
      , m_activeWindowIndex := 7 } :=
  zoomIn_picker_selects_window _ 7 rfl

/-- Claim C6: from any state at level Focus, `zoomIn(x)` leaves the entire
state unchanged. -/
theorem zoomIn_focus_noop (nav : SpatialNavigator) (x : Int)
    (h : nav.m_currentLevel = ZoomLevel.LEVEL_3_FOCUS) :
    (zoomIn nav x).1 = nav := by
  simp [zoomIn, h]

/-- Witness for C6 at the concrete state (Focus, 0, 1, -1) and x = 9. -/
theorem zoomIn_focus_noop_witness :
    (zoomIn
      { m_currentLevel := ZoomLevel.LEVEL_3_FOCUS
      , m_activeSectorIndex := 0
      , m_activeAppIndex := 1
      , m_activeWindowIndex := -1 } 9).1 =
      { m_currentLevel := ZoomLevel.LEVEL_3_FOCUS
      , m_activeSectorIndex := 0
      , m_activeAppIndex := 1
      , m_activeWindowIndex := -1 } :=
  zoomIn_focus_noop _ 9 rfl

/-- Claim C7: from any state at level Root, `zoomOut()` leaves the entire
state unchanged. -/
theorem zoomOut_root_noop (nav : SpatialNavigator)
    (h : nav.m_currentLevel = ZoomLevel.LEVEL_1_ROOT) :
    (zoomOut nav).1 = nav := by
  simp [zoomOut, h]

/-- Witness for C7 at the freshly constructed navigator. -/
theorem zoomOut_root_noop_witness :
    (zoomOut SpatialNavigator.construct).1 = SpatialNavigator.construct :=
  zoomOut_root_noop _ rfl

/-- Claim C8: `splitView()` never mutates the state, whether or not the
level is Focus. -/
theorem splitView_preserves_state (nav : SpatialNavigator) :
    (splitView nav).1 = nav := by
  unfold splitView
  split <;> rfl

/-- Claim C5: from any state at level Root, `zoomIn(s)` followed by
`zoomOut()` returns to the starting configuration (level Root,
`m_activeSectorIndex` unset), for every integer `s`. -/
theorem zoomIn_zoomOut_root_roundtrip (nav : SpatialNavigator) (s : Int)
    (h : nav.m_currentLevel = ZoomLevel.LEVEL_1_ROOT) :
    (zoomOut (zoomIn nav s).1).1 = { nav with m_activeSectorIndex := -1 } := by
  simp [zoomIn, zoomOut, h]

/-- Witness for C5 at the freshly constructed navigator and s = 3:
the round trip lands exactly back on the constructed state. -/
theorem zoomIn_zoomOut_root_roundtrip_witness :
    (zoomOut (zoomIn SpatialNavigator.construct 3).1).1 =
      SpatialNavigator.construct :=
  zoomIn_zoomOut_root_roundtrip SpatialNavigator.construct 3 rfl

/-- Claim C3: from any state at level Focus, `zoomOut()` goes to Picker with
every index unchanged when `m_activeAppIndex % 2 == 0` (the stubbed
multiple-windows predicate, C++ truncated remainder), and otherwise goes to
Sector with `m_activeAppIndex` cleared to the `-1` sentinel. -/
theorem zoomOut_focus_branch (nav : SpatialNavigator)
    (h : nav.m_currentLevel = ZoomLevel.LEVEL_3_FOCUS) :
    (Int.tmod nav.m_activeAppIndex 2 = 0 →
      (zoomOut nav).1 = { nav with m_currentLevel := ZoomLevel.LEVEL_3A_PICKER }) ∧
    (Int.tmod nav.m_activeAppIndex 2 ≠ 0 →
      (zoomOut nav).1 = { nav with m_currentLevel := ZoomLevel.LEVEL_2_SECTOR
                                 , m_activeAppIndex := -1 }) := by
  constructor <;> intro hb <;> simp [zoomOut, h, hasMultipleWindows, hb]

/-- Witness for C3: an even app index (2) at Focus goes to Picker with the
app retained; an odd app index (1) at Focus goes to Sector with the app
cleared. -/
theorem zoomOut_focus_branch_witness :
    (zoomOut
      { m_currentLevel := ZoomLevel.LEVEL_3_FOCUS
      , m_activeSectorIndex := 0
      , m_activeAppIndex := 2
      , m_activeWindowIndex := -1 }).1 =
      { m_currentLevel := ZoomLevel.LEVEL_3A_PICKER
      , m_activeSectorIndex := 0
      , m_activeAppIndex := 2
      , m_activeWindowIndex := -1 } ∧
    (zoomOut
      { m_currentLevel := ZoomLevel.LEVEL_3_FOCUS
      , m_activeSectorIndex := 0
      , m_activeAppIndex := 1
      , m_activeWindowIndex := -1 }).1 =
      { m_currentLevel := ZoomLevel.LEVEL_2_SECTOR
      , m_activeSectorIndex := 0
      , m_activeAppIndex := -1
      , m_activeWindowIndex := -1 } :=
  ⟨(zoomOut_focus_branch _ rfl).1 (by decide),
   (zoomOut_focus_branch _ rfl).2 (by decide)⟩

/-- Claim C10: with depth Root < Sector < Picker < Focus, `zoomIn` never
decreases the depth of the current level and `zoomOut` never increases it,
for every state and every integer argument. -/
theorem zoom_depth_monotone (nav : SpatialNavigator) (t : Int) :
    ZoomLevel.depth nav.m_currentLevel ≤
        ZoomLevel.depth (zoomIn nav t).1.m_currentLevel ∧
    ZoomLevel.depth (zoomOut nav).1.m_currentLevel ≤
        ZoomLevel.depth nav.m_currentLevel := by
  obtain ⟨lvl, sec, app, win⟩ := nav
  constructor
  · cases lvl <;> simp [zoomIn, ZoomLevel.depth]
  · by_cases hb : hasMultipleWindows app <;>
      cases lvl <;> simp [zoomOut, hb, ZoomLevel.depth]

/-- Invariant preservation along any call sequence. -/
lemma runOps_preserves (P : SpatialNavigator → Prop)
    (hstep : ∀ nav o, P nav → P (applyOp nav o)) :
    ∀ (ops : List NavOp) (nav : SpatialNavigator),
      P nav → P (runOps nav ops)
  | [], _, h => h
  | o :: rest, nav, h =>
      runOps_preserves P hstep rest (applyOp nav o) (hstep nav o h)

/-- Invariant preservation along call sequences whose arguments all avoid
the `-1` sentinel. -/
lemma runOps_preserves_ok (P : SpatialNavigator → Prop)
    (hstep : ∀ nav o, argOk o = true → P nav → P (applyOp nav o)) :
    ∀ (ops : List NavOp) (nav : SpatialNavigator),
      ops.all argOk = true → P nav → P (runOps nav ops)
  | [], _, _, h => h
  | o :: rest, nav, hall, h => by
      rw [List.all_cons, Bool.and_eq_true] at hall
      exact runOps_preserves_ok P hstep rest (applyOp nav o) hall.2
        (hstep nav o hall.1 h)

/-- One step preserves the index/level correspondence, provided the call
argument is not the `-1` sentinel. -/
lemma indicesInv_step (nav : SpatialNavigator) (o : NavOp)
    (hok : argOk o = true) (h : indicesInv nav) :
    indicesInv (applyOp nav o) := by
  obtain ⟨lvl, sec, app, win⟩ := nav
  obtain ⟨h1, h2⟩ := h
  cases o with
  | zoomIn t =>
      simp only [argOk, bne_iff_ne, ne_eq] at hok
      cases lvl <;> simp_all [applyOp, zoomIn, indicesInv]
  | zoomOut =>
      by_cases hb : hasMultipleWindows app <;>
        cases lvl <;> simp_all [applyOp, zoomOut, indicesInv, hb]
  | splitView =>
      cases lvl <;> simp_all [applyOp, splitView, indicesInv]

/-- Claim C1 (amended): for every state reachable from the freshly
constructed navigator by calls whose `zoomIn` arguments are never the `-1`
sentinel, `m_activeSectorIndex` differs from `-1` iff the level is Sector,
Focus or Picker, and `m_activeAppIndex` differs from `-1` iff the level is
Focus or Picker. -/
theorem reachable_indices_inv (nav : SpatialNavigator)
    (h : ∃ ops : List NavOp,
      ops.all argOk = true ∧ runOps SpatialNavigator.construct ops = nav) :
    indicesInv nav := by
  obtain ⟨ops, hall, rfl⟩ := h
  exact runOps_preserves_ok indicesInv indicesInv_step ops
    SpatialNavigator.construct hall
    (by simp [indicesInv, SpatialNavigator.construct])

/-- Witness for C1 (amended) after the calls zoomIn 0, zoomIn 2, zoomOut. -/
theorem reachable_indices_inv_witness :
    indicesInv (runOps SpatialNavigator.construct
      [NavOp.zoomIn 0, NavOp.zoomIn 2, NavOp.zoomOut]) :=
  reachable_indices_inv _
    ⟨[NavOp.zoomIn 0, NavOp.zoomIn 2, NavOp.zoomOut], by decide, rfl⟩

/-- Counterexample to C1 as stated: with arbitrary integer arguments the
invariant fails, because `zoomIn(-1)` from Root reaches level Sector while
`m_activeSectorIndex` holds the `-1` sentinel. -/
theorem reachable_indices_inv_cex :
    ¬ (∀ nav : SpatialNavigator, Reachable nav → indicesInv nav) := by
  intro h
  have h1 := (h (runOps SpatialNavigator.construct [NavOp.zoomIn (-1)])
    ⟨[NavOp.zoomIn (-1)], rfl⟩).1
  exact h1.mpr (Or.inl (by decide)) (by decide)

/-- Claim C2 (amended): `zoomOut()` clears the sector index on the
Sector→Root transition and the app index on the Focus→Sector and
Picker→Sector transitions, but it never modifies `m_activeWindowIndex`: the
zoom-out path that leaves Focus keeps the window index unchanged, so a
window index that was set stays set. -/
theorem zoomOut_clears_sector_app_not_window (nav : SpatialNavigator) :
    (zoomOut nav).1.m_activeWindowIndex = nav.m_activeWindowIndex ∧
    (nav.m_currentLevel = ZoomLevel.LEVEL_2_SECTOR →
      (zoomOut nav).1.m_activeSectorIndex = -1) ∧
    (nav.m_currentLevel = ZoomLevel.LEVEL_3_FOCUS →
      Int.tmod nav.m_activeAppIndex 2 ≠ 0 →
      (zoomOut nav).1.m_activeAppIndex = -1) ∧
    (nav.m_currentLevel = ZoomLevel.LEVEL_3A_PICKER →
      (zoomOut nav).1.m_activeAppIndex = -1) := by
  obtain ⟨lvl, sec, app, win⟩ := nav
  by_cases hb : hasMultipleWindows app <;>
    cases lvl <;>
      simp_all [zoomOut, hasMultipleWindows]

/-- Witness for C2 (amended): zooming out of the state
(Sector, sector 5, app unset, window 7) clears the sector index and leaves
the window index at 7. -/
theorem zoomOut_clears_sector_app_not_window_witness :
    (zoomOut
      { m_currentLevel := ZoomLevel.LEVEL_2_SECTOR
      , m_activeSectorIndex := 5
      , m_activeAppIndex := -1
      , m_activeWindowIndex := 7 }).1.m_activeSectorIndex = -1 ∧
    (zoomOut
      { m_currentLevel := ZoomLevel.LEVEL_2_SECTOR
      , m_activeSectorIndex := 5
      , m_activeAppIndex := -1
      , m_activeWindowIndex := 7 }).1.m_activeWindowIndex = 7 :=
  ⟨(zoomOut_clears_sector_app_not_window _).2.1 rfl,
   (zoomOut_clears_sector_app_not_window _).1⟩

/-- Counterexample to C2 as stated: from the reachable Focus state with
window index 5 (calls zoomIn 0, zoomIn 2, zoomOut, zoomIn 5), the zoom-out
path leaving Focus (one zoomOut reaches Picker, a second reaches Sector)
never unsets `m_activeWindowIndex`; it stays 5. -/
theorem zoomOut_window_cleared_cex :
    ¬ (∀ nav : SpatialNavigator, Reachable nav →
        nav.m_currentLevel = ZoomLevel.LEVEL_3_FOCUS →
        nav.m_activeWindowIndex ≠ -1 →
        ((zoomOut nav).1.m_activeWindowIndex = -1 ∨
         (zoomOut (zoomOut nav).1).1.m_activeWindowIndex = -1)) := by
  intro h
  have h1 := h (runOps SpatialNavigator.construct
      [NavOp.zoomIn 0, NavOp.zoomIn 2, NavOp.zoomOut, NavOp.zoomIn 5])
    ⟨[NavOp.zoomIn 0, NavOp.zoomIn 2, NavOp.zoomOut, NavOp.zoomIn 5], rfl⟩
    (by decide) (by decide)
  revert h1
  decide

/-- One step preserves "at level Picker the app index is even". -/
lemma picker_even_step (nav : SpatialNavigator) (o : NavOp)
    (h : nav.m_currentLevel = ZoomLevel.LEVEL_3A_PICKER →
      Int.tmod nav.m_activeAppIndex 2 = 0) :
    (applyOp nav o).m_currentLevel = ZoomLevel.LEVEL_3A_PICKER →
      Int.tmod (applyOp nav o).m_activeAppIndex 2 = 0 := by
  obtain ⟨lvl, sec, app, win⟩ := nav
  cases o with
  | zoomIn t => cases lvl <;> simp_all [applyOp, zoomIn]
  | zoomOut =>
      by_cases hb : hasMultipleWindows app <;>
        cases lvl <;>
          simp_all [applyOp, zoomOut, hasMultipleWindows]
  | splitView => cases lvl <;> simp_all [applyOp, splitView]

/-- Claim C9: in every state reachable from the freshly constructed
navigator by any call sequence with arbitrary integer arguments, level
Picker implies the app index satisfies `m_activeAppIndex % 2 == 0` (C++
truncated remainder). -/
theorem reachable_picker_app_even (nav : SpatialNavigator)
    (h : Reachable nav)
    (hp : nav.m_currentLevel = ZoomLevel.LEVEL_3A_PICKER) :
    Int.tmod nav.m_activeAppIndex 2 = 0 := by
  obtain ⟨ops, rfl⟩ := h
  exact runOps_preserves
    (fun s => s.m_currentLevel = ZoomLevel.LEVEL_3A_PICKER →
      Int.tmod s.m_activeAppIndex 2 = 0)
    picker_even_step ops SpatialNavigator.construct (by intro hc; cases hc) hp

/-- Witness for C9 at the Picker state reached by zoomIn 0, zoomIn 2,
zoomOut. -/
theorem reachable_picker_app_even_witness :
    Int.tmod (runOps SpatialNavigator.construct
      [NavOp.zoomIn 0, NavOp.zoomIn 2, NavOp.zoomOut]).m_activeAppIndex 2 = 0 :=
  reachable_picker_app_even _
    ⟨[NavOp.zoomIn 0, NavOp.zoomIn 2, NavOp.zoomOut], rfl⟩ (by decide)
